import Mathlib

/-!
Shallow embedding of `src/mos_agent.py` (the MOS Agent: browser-session
manager, search pipeline, request validation, and LLM tool-dispatch loop),
with theorems settling the specification claims.

The Python source in the repository ends mid-way through `_ensure_context`;
the tail of that function, `_execute_queries`, the resilient element
locator, and the tool-dispatch loop exist only through their declarations
and callers.  Those parts are modelled from the specification and carry a
doc comment saying so; everything else is translated directly from the
source.
-/

namespace MosAgent

/-- The environment read once at process start.  `mos_profile_dir_env`
models `os.getenv("MOS_PROFILE_DIR")`, `home` models
`os.path.expanduser("~")`.  `writable` is the set of directories where
`os.makedirs` succeeds (everything else raises `PermissionError`);
`engineOk` models whether `async_playwright().start()` succeeds and
`launchOk` whether launching the persistent browser context succeeds. -/
structure World where
  mos_profile_dir_env : Option String
  home : String
  writable : List String
  engineOk : Bool
  launchOk : Bool

/-- `PROFILE_DIR = os.getenv("MOS_PROFILE_DIR", "/opt/mos_profile")`
(src line 22). -/
def PROFILE_DIR (w : World) : String :=
  w.mos_profile_dir_env.getD "/opt/mos_profile"

/-- `FALLBACK_PROFILE_DIR = os.path.join(os.path.expanduser("~"), ".mos_profile")`
(src line 23). -/
def FALLBACK_PROFILE_DIR (w : World) : String :=
  w.home ++ "/.mos_profile"

/-- `RESULTS_PER_QUERY_LIMIT = 20` (src line 27). -/
def RESULTS_PER_QUERY_LIMIT : Nat := 20

/-- The mutable module state of the session manager: `_play` (whether the
automation engine has started), `_ctx` (the live browser context, as an
identity token so that distinct launches are distinguishable), and
`_ctx_headless` and `_profile_dir_in_use`.  `next_ctx_id` is the source of
fresh identity tokens for newly launched contexts. -/
structure SessionState where
  play_started : Bool
  ctx : Option Nat
  ctx_headless : Option Bool
  profile_dir_in_use : String
  next_ctx_id : Nat
deriving DecidableEq

/-- Module initialisation (src lines 24, 198-201):
`_profile_dir_in_use = FALLBACK_PROFILE_DIR`, `_play = None`,
`_ctx = None`, `_ctx_headless = None`. -/
def initState (w : World) : SessionState :=
  { play_started := false
    ctx := none
    ctx_headless := none
    profile_dir_in_use := FALLBACK_PROFILE_DIR w
    next_ctx_id := 0 }

/-- The candidate list built in `_ensure_context` (src lines 222-225):
`for cand in (_profile_dir_in_use, PROFILE_DIR, FALLBACK_PROFILE_DIR):
if cand and cand not in candidate_paths: candidate_paths.append(cand)` —
non-empty candidates, deduplicated, order preserved. -/
def candidatePaths (st : SessionState) (w : World) : List String :=
  [st.profile_dir_in_use, PROFILE_DIR w, FALLBACK_PROFILE_DIR w].foldl
    (fun acc cand => if cand ≠ "" ∧ cand ∉ acc then acc ++ [cand] else acc) []

/-- The error taxonomy of the session manager (spec section 7; the raising
code is in the missing tail of `_ensure_context`). -/
inductive AcquireError where
  | SessionUnavailable
deriving DecidableEq

/-- Modelled from the spec: the tail of `_ensure_context` missing from the
source (the loop body after the `os.makedirs` try/except at src line 231,
and the final failure raise).  Per spec sections 3 and 4.1: candidates are
tried in order, a permission failure on `makedirs` skips to the next
candidate, the first writable path becomes the profile directory in use,
a persistent context bound to it is launched, and if every candidate is
unwritable or the automation engine fails to start the call fails with a
fatal `SessionUnavailable` error.  The caller reaches this point with
`_ctx` already `None` and `_play` starting (src lines 214-218): if the
engine is not yet started and fails to start, the failure propagates. -/
def buildContext (w : World) (st : SessionState) (headless : Bool) :
    SessionState × Except AcquireError Nat :=
  if st.play_started = false ∧ w.engineOk = false then
    (st, Except.error AcquireError.SessionUnavailable)
  else
    match (candidatePaths { st with play_started := true } w).find?
        (fun c => w.writable.contains c) with
    | none =>
      ({ st with play_started := true },
       Except.error AcquireError.SessionUnavailable)
    | some dir =>
      if w.launchOk then
        ({ st with
            play_started := true
            ctx := some st.next_ctx_id
            ctx_headless := some headless
            profile_dir_in_use := dir
            next_ctx_id := st.next_ctx_id + 1 },
         Except.ok st.next_ctx_id)
      else
        ({ st with play_started := true },
         Except.error AcquireError.SessionUnavailable)

/-- `_ensure_context` (src lines 206-231 plus the spec-modelled tail
`buildContext`).  Fast path: if a context is live and its headless mode
matches, return it unchanged.  Otherwise (under the lock, which the
sequential model elides) the live context, if any, is closed and a new one
is built. -/
def ensure_context (w : World) (st : SessionState) (headless : Bool) :
    SessionState × Except AcquireError Nat :=
  match st.ctx with
  | some c =>
    if st.ctx_headless = some headless then (st, Except.ok c)
    else buildContext w { st with ctx := none } headless
  | none => buildContext w st headless


/-- If `buildContext` succeeds, the resulting state carries the returned
context, tagged with the requested headless mode, the fresh-id counter has
moved past the returned id, and the returned id is exactly the pending
fresh id of the argument state. -/
theorem buildContext_ok_post (w : World) (st : SessionState) (headless : Bool)
    (st2 : SessionState) (c : Nat)
    (h : buildContext w st headless = (st2, Except.ok c)) :
    st2.ctx = some c ∧ st2.ctx_headless = some headless ∧
      c < st2.next_ctx_id ∧ c = st.next_ctx_id := by
  unfold buildContext at h
  split at h
  · simp at h
  · split at h
    next heq => simp at h
    next dir heq =>
      split at h
      · injection h with h1 h2
        injection h2 with h2
        subst h2
        subst h1
        simp
      · simp at h

/-- If `ensure_context` succeeds, the resulting state carries the returned
context, tagged with the requested headless mode; when the argument state
was well formed (its live context id, if any, below the fresh counter),
the returned id is below the resulting fresh counter. -/
theorem ensure_context_ok_post (w : World) (st : SessionState) (headless : Bool)
    (st2 : SessionState) (c : Nat)
    (hwf : ∀ x, st.ctx = some x → x < st.next_ctx_id)
    (h : ensure_context w st headless = (st2, Except.ok c)) :
    st2.ctx = some c ∧ st2.ctx_headless = some headless ∧ c < st2.next_ctx_id := by
  unfold ensure_context at h
  split at h
  next c0 heq =>
    split at h
    next hmode =>
      injection h with h1 h2
      injection h2 with h2
      subst h2
      subst h1
      exact ⟨heq, hmode, hwf c0 heq⟩
    next hmode =>
      obtain ⟨p1, p2, p3, p4⟩ := buildContext_ok_post w _ headless st2 c h
      exact ⟨p1, p2, p3⟩
  next heq =>
    obtain ⟨p1, p2, p3, p4⟩ := buildContext_ok_post w st headless st2 c h
    exact ⟨p1, p2, p3⟩

/-- On a state whose live context matches the requested mode,
`ensure_context` is the identity and returns that context. -/
theorem ensure_context_fast (w : World) (st : SessionState) (headless : Bool)
    (c : Nat) (h1 : st.ctx = some c) (h2 : st.ctx_headless = some headless) :
    ensure_context w st headless = (st, Except.ok c) := by
  unfold ensure_context
  split
  next c0 heq =>
    rw [if_pos h2]
    rw [h1] at heq
    injection heq with heq
    subst heq
    rfl
  next heq =>
    rw [h1] at heq
    exact absurd heq (by simp)

/-- On a state with a live context of the wrong mode, `ensure_context`
closes it and rebuilds. -/
theorem ensure_context_slow (w : World) (st : SessionState) (headless : Bool)
    (c : Nat) (h1 : st.ctx = some c) (h2 : st.ctx_headless ≠ some headless) :
    ensure_context w st headless
      = buildContext w { st with ctx := none } headless := by
  unfold ensure_context
  split
  next c0 heq =>
    rw [if_neg h2]
  next heq =>
    rw [h1] at heq
    exact absurd heq (by simp)

/-- C1: session reuse and teardown-and-recreate in `acquire`
(`_ensure_context`).  After a successful acquisition returning context `c`,
acquiring again with the same headless mode returns the identical context
and leaves the state untouched (no relaunch), while acquiring with a
different mode, when it succeeds, returns a context distinct from `c`
(a freshly created one). -/
theorem C1_session_reuse (w : World) (st : SessionState) (h hb : Bool) (c : Nat)
    (hwf : ∀ x, st.ctx = some x → x < st.next_ctx_id)
    (hok : (ensure_context w st h).2 = Except.ok c) :
    ensure_context w (ensure_context w st h).1 h
      = ((ensure_context w st h).1, Except.ok c) ∧
    (hb ≠ h → ∀ c2,
      (ensure_context w (ensure_context w st h).1 hb).2 = Except.ok c2 → c2 ≠ c) := by
  have hfull : ensure_context w st h = ((ensure_context w st h).1, Except.ok c) := by
    rw [← hok]
  obtain ⟨hctx2, hmode2, hlt2⟩ := ensure_context_ok_post w st h _ c hwf hfull
  constructor
  · exact ensure_context_fast w _ h c hctx2 hmode2
  · intro hbne c2 hok2
    have hmodene : (ensure_context w st h).1.ctx_headless ≠ some hb := by
      rw [hmode2]
      simp only [ne_eq, Option.some.injEq]
      exact fun e => hbne e.symm
    rw [ensure_context_slow w _ hb c hctx2 hmodene] at hok2
    have hfull2 : buildContext w { (ensure_context w st h).1 with ctx := none } hb
        = ((buildContext w { (ensure_context w st h).1 with ctx := none } hb).1,
            Except.ok c2) := by
      rw [← hok2]
    obtain ⟨q1, q2, q3, q4⟩ := buildContext_ok_post w _ hb _ c2 hfull2
    simp only at q4
    omega

/-- A concrete world for evaluating the definitions: `MOS_PROFILE_DIR`
unset, home directory `/root`, only the fallback profile directory
writable, engine and launch succeeding. -/
def w0 : World :=
  { mos_profile_dir_env := none
    home := "/root"
    writable := ["/root/.mos_profile"]
    engineOk := true
    launchOk := true }

theorem C1_session_reuse_witness :
    ensure_context w0 (ensure_context w0 (initState w0) true).1 true
      = ((ensure_context w0 (initState w0) true).1, Except.ok 0) :=
  (C1_session_reuse w0 (initState w0) true false 0
    (fun x hx => by simp [initState] at hx) rfl).1

/-- `buildContext` fails exactly when the engine cannot start, no profile
candidate is writable, or the context launch fails. -/
theorem buildContext_error_iff (w : World) (st : SessionState) (headless : Bool) :
    (buildContext w st headless).2 = Except.error AcquireError.SessionUnavailable ↔
      ((st.play_started = false ∧ w.engineOk = false) ∨
       (candidatePaths st w).find? (fun c => w.writable.contains c) = none ∨
       w.launchOk = false) := by
  unfold buildContext
  split
  next h0 =>
    constructor
    · intro _
      exact Or.inl h0
    · intro _
      rfl
  next h0 =>
    have hcand : candidatePaths { st with play_started := true } w
        = candidatePaths st w := rfl
    split
    next heq =>
      rw [hcand] at heq
      constructor
      · intro _
        exact Or.inr (Or.inl heq)
      · intro _
        rfl
    next dir heq =>
      rw [hcand] at heq
      split
      next hl =>
        constructor
        · intro hcon
          exact absurd hcon (by simp)
        · rintro (h1 | h2 | h3)
          · exact absurd h1 h0
          · rw [heq] at h2
            exact absurd h2 (by simp)
          · rw [hl] at h3
            exact absurd h3 (by simp)
      next hl =>
        simp only [Bool.not_eq_true] at hl
        constructor
        · intro _
          exact Or.inr (Or.inr hl)
        · intro _
          rfl

/-- When `buildContext` fails, no context has been created: the context
slot is whatever it was on entry. -/
theorem buildContext_error_post (w : World) (st : SessionState) (headless : Bool)
    (st2 : SessionState)
    (h : buildContext w st headless
        = (st2, Except.error AcquireError.SessionUnavailable)) :
    st2.ctx = st.ctx := by
  unfold buildContext at h
  split at h
  next h0 =>
    injection h with h1 h2
    subst h1
    rfl
  next h0 =>
    split at h
    next heq =>
      injection h with h1 h2
      subst h1
      rfl
    next dir heq =>
      split at h
      next hl =>
        injection h with h1 h2
        injection h2
      next hl =>
        injection h with h1 h2
        subst h1
        rfl

/-- C2: when acquisition cannot reuse a live session (none exists, or the
requested mode differs), it fails with the fatal `SessionUnavailable`
error exactly when every profile-directory candidate is unwritable or the
automation engine (engine start or context launch) fails to start; the
error is returned to the caller, and in that case no live context exists
afterwards (no hidden retry produced one). -/
theorem C2_session_unavailable (w : World) (st : SessionState) (headless : Bool)
    (hneed : st.ctx = none ∨ st.ctx_headless ≠ some headless) :
    ((ensure_context w st headless).2
        = Except.error AcquireError.SessionUnavailable ↔
      ((st.play_started = false ∧ w.engineOk = false) ∨
       (candidatePaths st w).find? (fun c => w.writable.contains c) = none ∨
       w.launchOk = false)) ∧
    ((ensure_context w st headless).2
        = Except.error AcquireError.SessionUnavailable →
      (ensure_context w st headless).1.ctx = none) := by
  cases hctx : st.ctx with
  | none =>
    have he : ensure_context w st headless = buildContext w st headless := by
      unfold ensure_context
      split
      next c0 heq =>
        rw [hctx] at heq
        exact absurd heq (by simp)
      next heq => rfl
    rw [he]
    refine ⟨buildContext_error_iff w st headless, fun herr => ?_⟩
    have hfull : buildContext w st headless
        = ((buildContext w st headless).1,
            Except.error AcquireError.SessionUnavailable) := by
      rw [← herr]
    rw [buildContext_error_post w st headless _ hfull, hctx]
  | some c0 =>
    have hmode : st.ctx_headless ≠ some headless := by
      rcases hneed with hn | hn
      · rw [hctx] at hn
        exact absurd hn (by simp)
      · exact hn
    rw [ensure_context_slow w st headless c0 hctx hmode]
    refine ⟨buildContext_error_iff w { st with ctx := none } headless,
      fun herr => ?_⟩
    have hfull : buildContext w { st with ctx := none } headless
        = ((buildContext w { st with ctx := none } headless).1,
            Except.error AcquireError.SessionUnavailable) := by
      rw [← herr]
    rw [buildContext_error_post w { st with ctx := none } headless _ hfull]

theorem C2_session_unavailable_witness :
    (ensure_context { w0 with engineOk := false } (initState { w0 with engineOk := false }) true).2
      = Except.error AcquireError.SessionUnavailable :=
  ((C2_session_unavailable { w0 with engineOk := false }
      (initState { w0 with engineOk := false }) true (Or.inl rfl)).1).mpr
    (Or.inl ⟨rfl, rfl⟩)

/-- C3: the candidate order actually used by `_ensure_context`.  At process
start `_profile_dir_in_use` is initialised to `FALLBACK_PROFILE_DIR`
(src line 24) and the loop iterates
`(_profile_dir_in_use, PROFILE_DIR, FALLBACK_PROFILE_DIR)` (src line 223),
so the first acquisition tries the fallback directory under the home
directory BEFORE the primary configured path — the reverse of the
documented primary-first order. -/
theorem C3_fallback_tried_first :
    candidatePaths (initState w0) w0
      = [FALLBACK_PROFILE_DIR w0, PROFILE_DIR w0] ∧
    FALLBACK_PROFILE_DIR w0 = "/root/.mos_profile" ∧
    PROFILE_DIR w0 = "/opt/mos_profile" ∧
    FALLBACK_PROFILE_DIR w0 ≠ PROFILE_DIR w0 := by
  refine ⟨?_, rfl, rfl, by decide⟩
  decide

/-- `SearchResult` (spec section 3): one extracted result row. -/
structure SearchResult where
  doc_id : Option String
  title : String
  url : String
  snippet : String
deriving DecidableEq

/-- Modelled from the spec: the per-query part of `_execute_queries`,
which is missing from the source (only its caller, the `/search` handler
at src lines 234-239, is present).  `portal q = none` models a query whose
execution fails (element not found, navigation timeout); `portal q = some rs`
models the results extracted from the results DOM in order.  Per spec
section 4.4, a failing query is caught and recorded as zero results, and a
successful one is capped at `max_per_query` with the hard ceiling
`RESULTS_PER_QUERY_LIMIT` applied regardless of the requested value. -/
def executeQuery (portal : String → Option (List SearchResult))
    (max_per_query : Nat) (q : String) : List SearchResult :=
  match portal q with
  | none => []
  | some rs => rs.take (min max_per_query RESULTS_PER_QUERY_LIMIT)

/-- Modelled from the spec: `_execute_queries` over a batch — each query
run in submission order, each query capped independently, later queries
appended after earlier ones (spec sections 3 and 4.4). -/
def execute_queries (portal : String → Option (List SearchResult))
    (queries : List String) (max_per_query : Nat) : List SearchResult :=
  (queries.map (executeQuery portal max_per_query)).flatten

/-- `min_items=1` on `SearchRequest.queries` (src line 176). -/
def SearchRequest_queries_min_items : Nat := 1

/-- `max_items=25` on `SearchRequest.queries` (src line 176). -/
def SearchRequest_queries_max_items : Nat := 25

/-- `SearchRequest` (src lines 175-177); `max_per_query` defaults to 5. -/
structure SearchRequest where
  queries : List String
  max_per_query : Nat := 5

/-- `LogSearchRequest` (src lines 180-183); both counters default to 5. -/
structure LogSearchRequest where
  log_text : String
  max_queries : Nat := 5
  max_per_query : Nat := 5

/-- The validation pydantic performs on `SearchRequest` before the handler
runs: `queries` has between `min_items=1` and `max_items=25` elements and
`max_per_query` lies in `ge=1 .. le=RESULTS_PER_QUERY_LIMIT`
(src lines 175-177). -/
def validSearchRequest (r : SearchRequest) : Bool :=
  decide (SearchRequest_queries_min_items ≤ r.queries.length) &&
  decide (r.queries.length ≤ SearchRequest_queries_max_items) &&
  decide (1 ≤ r.max_per_query) &&
  decide (r.max_per_query ≤ RESULTS_PER_QUERY_LIMIT)

/-- The validation pydantic performs on `LogSearchRequest`:
`log_text` has `min_length=1`, `max_queries` lies in `1 .. 25` and
`max_per_query` in `1 .. RESULTS_PER_QUERY_LIMIT` (src lines 180-183). -/
def validLogSearchRequest (r : LogSearchRequest) : Bool :=
  decide (1 ≤ r.log_text.length) &&
  decide (1 ≤ r.max_queries) &&
  decide (r.max_queries ≤ 25) &&
  decide (1 ≤ r.max_per_query) &&
  decide (r.max_per_query ≤ RESULTS_PER_QUERY_LIMIT)

/-- The `/search` handler body (src lines 234-239): run the batch, store
the aggregate into the process-wide `last_search_data` slot, return it.
The first component is the new `last_search_data`, the second the HTTP
response body. -/
def search (portal : String → Option (List SearchResult))
    (last_search_data : Option (List SearchResult)) (req : SearchRequest) :
    Option (List SearchResult) × List SearchResult :=
  let result := execute_queries portal req.queries req.max_per_query
  (some result, result)

/-- The FastAPI boundary of `/search`: the request model is validated
before the handler is invoked; an invalid request is rejected with a
validation error and the handler (and with it the core pipeline) never
runs, so `last_search_data` is untouched. -/
inductive HttpError where
  | validation_error
deriving DecidableEq

def search_endpoint (portal : String → Option (List SearchResult))
    (last_search_data : Option (List SearchResult)) (req : SearchRequest) :
    Option (List SearchResult) × Except HttpError (List SearchResult) :=
  if validSearchRequest req then
    ((search portal last_search_data req).1,
     Except.ok (search portal last_search_data req).2)
  else
    (last_search_data, Except.error HttpError.validation_error)

/-- The FastAPI boundary of `/search/log`, abstracting over the handler
body (log-derivation plus pipeline), which is missing from the source:
validation gates the core in the same way. -/
def search_log_endpoint {A : Type}
    (core : LogSearchRequest → A) (req : LogSearchRequest) :
    Except HttpError A :=
  if validLogSearchRequest req then Except.ok (core req)
  else Except.error HttpError.validation_error

/-- C4: a single query never yields more results than the requested
`max_per_query` when that is at most 20, and never more than the hard
ceiling `RESULTS_PER_QUERY_LIMIT = 20` regardless of the requested
value. -/
theorem C4_per_query_cap (portal : String → Option (List SearchResult))
    (max_per_query : Nat) (q : String) (hle : max_per_query ≤ 20) :
    (executeQuery portal max_per_query q).length ≤ max_per_query ∧
    ∀ m : Nat, (executeQuery portal m q).length ≤ RESULTS_PER_QUERY_LIMIT := by
  constructor
  · unfold executeQuery
    split
    · simp
    · exact le_trans (List.length_take_le ..) (min_le_left ..)
  · intro m
    unfold executeQuery
    split
    · simp
    · exact le_trans (List.length_take_le ..) (min_le_right ..)

theorem C4_per_query_cap_witness :
    (executeQuery (fun q => some (List.replicate 30
        { doc_id := none, title := q, url := q, snippet := q })) 5 "x").length ≤ 5 :=
  (C4_per_query_cap (fun q => some (List.replicate 30
      { doc_id := none, title := q, url := q, snippet := q })) 5 "x"
    (by decide)).1

/-- C5: the batch is partial-failure tolerant.  If one query in the batch
fails (its portal execution yields no result page), the aggregate response
is exactly the results of the queries before it followed by the results of
the queries after it, in submission order, and the aggregate length is the
sum of every query's independently-capped result count (the failed query
contributing zero). -/
theorem C5_partial_failure (portal : String → Option (List SearchResult))
    (max_per_query : Nat) (pre post : List String) (qbad : String)
    (hfail : portal qbad = none) :
    execute_queries portal (pre ++ qbad :: post) max_per_query
      = execute_queries portal pre max_per_query
        ++ execute_queries portal post max_per_query ∧
    (execute_queries portal (pre ++ qbad :: post) max_per_query).length
      = ((pre ++ qbad :: post).map
          (fun q => (executeQuery portal max_per_query q).length)).sum := by
  have hbad : executeQuery portal max_per_query qbad = [] := by
    unfold executeQuery
    rw [hfail]
  constructor
  · unfold execute_queries
    rw [List.map_append, List.map_cons, hbad, List.flatten_append,
      List.flatten_cons, List.nil_append]
  · unfold execute_queries
    rw [List.length_flatten, List.map_map]
    rfl

theorem C5_partial_failure_witness :
    execute_queries
        (fun q => if q = "bad" then none
          else some [{ doc_id := some q, title := q, url := q, snippet := q }])
        (["a", "bad", "b"]) 5
      = execute_queries
          (fun q => if q = "bad" then none
            else some [{ doc_id := some q, title := q, url := q, snippet := q }])
          ["a"] 5
        ++ execute_queries
            (fun q => if q = "bad" then none
              else some [{ doc_id := some q, title := q, url := q, snippet := q }])
            ["b"] 5 :=
  (C5_partial_failure
    (fun q => if q = "bad" then none
      else some [{ doc_id := some q, title := q, url := q, snippet := q }])
    5 ["a"] ["b"] "bad" (by decide)).1

/-- C6: after each `/search` call the process-wide `last_search_data` slot
holds exactly the aggregate response that call returned
(src lines 234-239: `result = await _execute_queries(...)`,
`last_search_data = result`, `return result`). -/
theorem C6_last_search_retained (portal : String → Option (List SearchResult))
    (last_search_data : Option (List SearchResult)) (req : SearchRequest) :
    (search portal last_search_data req).1
      = some (search portal last_search_data req).2 := rfl

/-- C7: inbound requests are validated against the stated bounds before
the core runs.  `validSearchRequest` accepts exactly 1..25 queries with
`max_per_query` in 1..20; `validLogSearchRequest` accepts exactly a
non-empty `log_text` with `max_queries` in 1..25 and `max_per_query` in
1..20; both counters default to 5; a request failing validation is
rejected with a validation error and the core is never invoked (the
endpoint output does not depend on the core and `last_search_data` is
untouched); a request passing validation reaches the core with its values
exactly as submitted, never clamped. -/
theorem C7_boundary_validation (portal : String → Option (List SearchResult))
    (last_search_data : Option (List SearchResult))
    (r : SearchRequest) (rl : LogSearchRequest) :
    (validSearchRequest r = true ↔
      (1 ≤ r.queries.length ∧ r.queries.length ≤ 25 ∧
       1 ≤ r.max_per_query ∧ r.max_per_query ≤ 20)) ∧
    (validLogSearchRequest rl = true ↔
      (1 ≤ rl.log_text.length ∧ 1 ≤ rl.max_queries ∧ rl.max_queries ≤ 25 ∧
       1 ≤ rl.max_per_query ∧ rl.max_per_query ≤ 20)) ∧
    (∀ qs : List String, ({ queries := qs } : SearchRequest).max_per_query = 5) ∧
    (∀ t : String, ({ log_text := t } : LogSearchRequest).max_queries = 5 ∧
      ({ log_text := t } : LogSearchRequest).max_per_query = 5) ∧
    (validSearchRequest r = false →
      search_endpoint portal last_search_data r
        = (last_search_data, Except.error HttpError.validation_error)) ∧
    (validSearchRequest r = true →
      (search_endpoint portal last_search_data r).2
        = Except.ok (execute_queries portal r.queries r.max_per_query)) ∧
    (∀ A : Type, ∀ core1 core2 : LogSearchRequest → A,
      validLogSearchRequest rl = false →
      search_log_endpoint core1 rl = search_log_endpoint core2 rl ∧
      search_log_endpoint core1 rl = Except.error HttpError.validation_error) ∧
    (∀ A : Type, ∀ core : LogSearchRequest → A,
      validLogSearchRequest rl = true →
      search_log_endpoint core rl = Except.ok (core rl)) := by
  refine ⟨?_, ?_, fun _ => rfl, fun _ => ⟨rfl, rfl⟩, ?_, ?_, ?_, ?_⟩
  · unfold validSearchRequest
    simp [SearchRequest_queries_min_items, SearchRequest_queries_max_items,
      RESULTS_PER_QUERY_LIMIT, and_assoc]
  · unfold validLogSearchRequest
    simp [RESULTS_PER_QUERY_LIMIT, and_assoc]
  · intro hv
    unfold search_endpoint
    rw [hv]
    rfl
  · intro hv
    unfold search_endpoint
    rw [hv]
    rfl
  · intro A core1 core2 hv
    unfold search_log_endpoint
    rw [hv]
    exact ⟨rfl, rfl⟩
  · intro A core hv
    unfold search_log_endpoint
    rw [hv]
    rfl

theorem C7_boundary_validation_witness :
    search_endpoint (fun _ => none) none { queries := [] }
      = (none, Except.error HttpError.validation_error) :=
  (C7_boundary_validation (fun _ => none) none { queries := [] }
      { log_text := "x" }).2.2.2.2.1 (by decide)

/-- `SEARCH_BOX_SELECTORS` (src lines 109-120): the ordered fallback
chain for the global search box, most specific first. -/
def SEARCH_BOX_SELECTORS : List String :=
  ["#pt1\\:svMenu\\:gsb\\:subFgsb\\:mGlobalSearch\\:pt_itG\\:\\:content",
   "aria/Global Search[role=\"textbox\"]",
   "input[id*=\"mGlobalSearch\" i]",
   "div[role=\"search\"] input",
   "input[aria-label*=\"Global Search\" i]",
   "input[aria-label*=\"Search\" i]",
   "input[placeholder*=\"Search\" i]",
   "input[type=\"search\"]",
   "input[id*=\"search\" i]",
   "input[name*=\"search\" i]"]

/-- Typed failure of the locator (spec section 4.3): names the logical
target and the number of candidates tried, never the raw selectors
alone. -/
inductive LocateError where
  | ElementNotFound (target : String) (candidates_tried : Nat)
deriving DecidableEq

/-- Modelled from the spec: the resilient element locator, whose code is
missing from the source (only its selector-chain data is present).
`resolve s = some e` means candidate selector `s` resolves, within its
per-candidate timeout, to a visible interactable element `e`;
`resolve s = none` means it fails.  The chain is walked strictly in
order, the first success is returned, and the returned list records the
candidates actually attempted. -/
def locateAux (resolve : String → Option Nat) (attempted : List String) :
    List String → List String × Option Nat
  | [] => (attempted, none)
  | s :: rest =>
    match resolve s with
    | some e => (attempted ++ [s], some e)
    | none => locateAux resolve (attempted ++ [s]) rest

/-- Modelled from the spec: `locate(session_page, chain, timeout)` —
first success wins; exhausting the chain yields `ElementNotFound` with the
logical target name and the number of candidates tried. -/
def locate (resolve : String → Option Nat) (target : String)
    (chain : List String) : List String × Except LocateError Nat :=
  match locateAux resolve [] chain with
  | (attempted, some e) => (attempted, Except.ok e)
  | (attempted, none) =>
    (attempted, Except.error (LocateError.ElementNotFound target chain.length))

/-- When every candidate fails, `locateAux` attempts the whole chain in
order and resolves nothing. -/
theorem locateAux_all_fail (resolve : String → Option Nat)
    (chain : List String) (hall : ∀ s ∈ chain, resolve s = none) :
    ∀ attempted, locateAux resolve attempted chain = (attempted ++ chain, none) := by
  induction chain with
  | nil =>
    intro attempted
    simp [locateAux]
  | cons s rest ih =>
    intro attempted
    unfold locateAux
    rw [hall s (by simp)]
    rw [ih (fun x hx => hall x (by simp [hx]))]
    simp

/-- C8: selector-chain resolution is order-preserving and first-success.
For a chain starting `[A, B, ...]` where `A` fails to resolve and `B`
resolves to a visible interactable element, the locator returns that
element having attempted exactly `[A, B]` — no later candidate is
attempted.  Exhausting a chain on which every candidate fails yields the
typed `ElementNotFound` failure naming the logical target and the number
of candidates tried. -/
theorem C8_locator_first_success (resolve : String → Option Nat)
    (target A B : String) (rest : List String) (e : Nat)
    (hA : resolve A = none) (hB : resolve B = some e) :
    locate resolve target (A :: B :: rest) = ([A, B], Except.ok e) ∧
    ∀ chain : List String, (∀ s ∈ chain, resolve s = none) →
      locate resolve target chain
        = (chain, Except.error (LocateError.ElementNotFound target chain.length)) := by
  constructor
  · unfold locate
    unfold locateAux
    rw [hA]
    unfold locateAux
    rw [hB]
    simp
  · intro chain hall
    unfold locate
    rw [locateAux_all_fail resolve chain hall []]
    simp

theorem C8_locator_first_success_witness :
    locate
        (fun s => if s = "input[id*=\"mGlobalSearch\" i]" then some 7 else none)
        "global search box"
        (SEARCH_BOX_SELECTORS.drop 1)
      = (["aria/Global Search[role=\"textbox\"]",
          "input[id*=\"mGlobalSearch\" i]"], Except.ok 7) :=
  (C8_locator_first_success
    (fun s => if s = "input[id*=\"mGlobalSearch\" i]" then some 7 else none)
    "global search box"
    "aria/Global Search[role=\"textbox\"]"
    "input[id*=\"mGlobalSearch\" i]"
    (SEARCH_BOX_SELECTORS.drop 3) 7 (by decide) (by decide)).1

/-- Message roles of `ChatMessage` (src lines 186-189). -/
inductive Role where
  | system
  | user
  | assistant
  | tool
deriving DecidableEq

/-- `ChatMessage` (src lines 186-189): role, content, and for tool
messages the id of the tool call they answer. -/
structure ChatMessage where
  role : Role
  content : String
  tool_call_id : Option String := none
deriving DecidableEq

/-- `ToolCall` (spec section 3): a structured tool request emitted by the
LLM. -/
structure ToolCall where
  name : String
  arguments : String
  call_id : String
deriving DecidableEq

/-- One LLM turn: either a final assistant message (zero tool calls) or a
list of requested tool calls. -/
inductive LLMResponse where
  | final (answer : String)
  | toolCalls (calls : List ToolCall)

/-- Terminal states of the dispatch loop (spec section 4.6). -/
inductive DispatchState where
  | answered
  | exhausted
deriving DecidableEq

/-- Outcome of the dispatch loop: the answer (partial on exhaustion), the
number of rounds used, whether the round cap was hit, and the terminal
state. -/
structure DispatchOutcome where
  answer : String
  rounds : Nat
  cap_hit : Bool
  state : DispatchState
deriving DecidableEq

/-- The best-available partial answer when the cap is hit: the content of
the most recent assistant message, or empty if none exists. -/
def lastAssistantContent (conv : List ChatMessage) : String :=
  match conv.reverse.find? (fun m => decide (m.role = Role.assistant)) with
  | some m => m.content
  | none => ""

/-- Modelled from the spec: the tool-dispatch loop (spec section 4.6),
whose code is missing from the source (only `ChatRequest`, `ChatMessage`
and `LLM_TOOLS` are present).  Each round submits the conversation to the
LLM; a response with zero tool calls is the final answer (state
`answered`); otherwise every requested call is executed, its result is
appended as a tool message keyed by its `call_id`, and the augmented
conversation is resubmitted.  `fuel` is the number of rounds still allowed
under the hard round cap; when it runs out the loop returns the
best-available partial answer with the cap-hit flag set (state
`exhausted`). -/
def runDispatch (llm : List ChatMessage → LLMResponse)
    (exec : ToolCall → String) :
    Nat → List ChatMessage → Nat → DispatchOutcome
  | 0, conv, used =>
    { answer := lastAssistantContent conv
      rounds := used
      cap_hit := true
      state := DispatchState.exhausted }
  | fuel + 1, conv, used =>
    match llm conv with
    | LLMResponse.final ans =>
      { answer := ans
        rounds := used + 1
        cap_hit := false
        state := DispatchState.answered }
    | LLMResponse.toolCalls calls =>
      runDispatch llm exec fuel
        (conv
          ++ [{ role := Role.assistant, content := "" }]
          ++ calls.map (fun c =>
              { role := Role.tool, content := exec c,
                tool_call_id := some c.call_id }))
        (used + 1)

/-- Modelled from the spec: `respond(conversation)` — run the dispatch
loop from the caller-supplied conversation with `cap` rounds allowed. -/
def respond (cap : Nat) (llm : List ChatMessage → LLMResponse)
    (exec : ToolCall → String) (conv : List ChatMessage) : DispatchOutcome :=
  runDispatch llm exec cap conv 0

/-- The loop never uses more rounds than the fuel it is given. -/
theorem runDispatch_rounds_le (llm : List ChatMessage → LLMResponse)
    (exec : ToolCall → String) :
    ∀ fuel conv used, (runDispatch llm exec fuel conv used).rounds ≤ used + fuel := by
  intro fuel
  induction fuel with
  | zero =>
    intro conv used
    simp [runDispatch]
  | succ n ih =>
    intro conv used
    unfold runDispatch
    split
    · simp
    · exact le_trans (ih _ (used + 1)) (by omega)

/-- Against an LLM that requests tool calls on every turn, the loop burns
all its fuel and terminates exhausted with the cap-hit flag set. -/
theorem runDispatch_always_tools (llm : List ChatMessage → LLMResponse)
    (exec : ToolCall → String)
    (halways : ∀ c : List ChatMessage, ∃ calls, llm c = LLMResponse.toolCalls calls) :
    ∀ fuel conv used,
      (runDispatch llm exec fuel conv used).state = DispatchState.exhausted ∧
      (runDispatch llm exec fuel conv used).rounds = used + fuel ∧
      (runDispatch llm exec fuel conv used).cap_hit = true := by
  intro fuel
  induction fuel with
  | zero =>
    intro conv used
    simp [runDispatch]
  | succ n ih =>
    intro conv used
    obtain ⟨calls, hcalls⟩ := halways conv
    have hstep : runDispatch llm exec (n + 1) conv used
        = runDispatch llm exec n
            (conv
              ++ [{ role := Role.assistant, content := "" }]
              ++ calls.map (fun c =>
                  { role := Role.tool, content := exec c,
                    tool_call_id := some c.call_id }))
            (used + 1) := by
      conv_lhs => rw [runDispatch, hcalls]
    rw [hstep]
    obtain ⟨i1, i2, i3⟩ := ih
      (conv
        ++ [{ role := Role.assistant, content := "" }]
        ++ calls.map (fun c =>
            { role := Role.tool, content := exec c,
              tool_call_id := some c.call_id }))
      (used + 1)
    exact ⟨i1, by omega, i3⟩

/-- C9: the tool-dispatch loop always terminates.  If the first LLM turn
contains zero tool calls the loop ends after exactly one round in the
`answered` state with that answer and no cap-hit flag; for every LLM
behaviour the number of rounds never exceeds the cap and the loop ends in
one of the two terminal states; and an LLM that requests a tool call on
every turn drives the loop to the `exhausted` state at exactly the round
cap with the cap-hit flag set, never looping indefinitely. -/
theorem C9_dispatch_termination (cap : Nat) (hcap : 1 ≤ cap)
    (llm : List ChatMessage → LLMResponse) (exec : ToolCall → String)
    (conv : List ChatMessage) :
    (∀ ans, llm conv = LLMResponse.final ans →
      respond cap llm exec conv
        = { answer := ans, rounds := 1, cap_hit := false,
            state := DispatchState.answered }) ∧
    (respond cap llm exec conv).rounds ≤ cap ∧
    ((respond cap llm exec conv).state = DispatchState.answered ∨
     (respond cap llm exec conv).state = DispatchState.exhausted) ∧
    ((∀ c : List ChatMessage, ∃ calls, llm c = LLMResponse.toolCalls calls) →
      (respond cap llm exec conv).state = DispatchState.exhausted ∧
      (respond cap llm exec conv).rounds = cap ∧
      (respond cap llm exec conv).cap_hit = true) := by
  refine ⟨?_, ?_, ?_, ?_⟩
  · intro ans hans
    obtain ⟨n, rfl⟩ : ∃ n, cap = n + 1 :=
      ⟨cap - 1, by omega⟩
    unfold respond runDispatch
    rw [hans]
  · have := runDispatch_rounds_le llm exec cap conv 0
    simpa [respond] using this
  · cases hs : (respond cap llm exec conv).state with
    | answered => exact Or.inl rfl
    | exhausted => exact Or.inr rfl
  · intro halways
    obtain ⟨i1, i2, i3⟩ := runDispatch_always_tools llm exec halways cap conv 0
    exact ⟨i1, by simpa [respond] using i2, i3⟩

theorem C9_dispatch_termination_witness :
    respond 8 (fun _ => LLMResponse.final "done") (fun _ => "") []
      = { answer := "done", rounds := 1, cap_hit := false,
          state := DispatchState.answered } :=
  (C9_dispatch_termination 8 (by decide) (fun _ => LLMResponse.final "done")
    (fun _ => "") []).1 "done" rfl

/-- JSON schema of an array-typed tool parameter (as written in
`LLM_TOOLS`, src lines 43-49). -/
structure ToolArraySchema where
  minItems : Nat
  maxItems : Nat
deriving DecidableEq

/-- JSON schema of an integer-typed tool parameter (as written in
`LLM_TOOLS`, src lines 50-55). -/
structure ToolIntSchema where
  minimum : Nat
  maximum : Nat
  default : Nat
deriving DecidableEq

/-- The parameter schema of the `search_mos` tool in `LLM_TOOLS`
(src lines 34-60): `queries` with `minItems 1, maxItems 5`, and
`max_per_query` with `minimum 1, maximum RESULTS_PER_QUERY_LIMIT,
default 5`. -/
structure SearchMosToolSchema where
  name : String
  queries : ToolArraySchema
  max_per_query : ToolIntSchema
deriving DecidableEq

def search_mos_tool : SearchMosToolSchema :=
  { name := "search_mos"
    queries := { minItems := 1, maxItems := 5 }
    max_per_query :=
      { minimum := 1, maximum := RESULTS_PER_QUERY_LIMIT, default := 5 } }

/-- C10: the fixed tool schema submitted to the LLM constrains
`search_mos` to 1..5 queries per call and `max_per_query` to at most 20 —
a strictly tighter query-count bound than the 1..25 queries the HTTP
`/search` boundary accepts: a 6-query request passes HTTP validation yet
exceeds the tool schema maximum. -/
theorem C10_tool_schema_tighter :
    search_mos_tool.queries.minItems = 1 ∧
    search_mos_tool.queries.maxItems = 5 ∧
    search_mos_tool.max_per_query.maximum = 20 ∧
    search_mos_tool.max_per_query.maximum = RESULTS_PER_QUERY_LIMIT ∧
    SearchRequest_queries_max_items = 25 ∧
    search_mos_tool.queries.maxItems < SearchRequest_queries_max_items ∧
    validSearchRequest
        { queries := List.replicate 6 "q", max_per_query := 5 } = true ∧
    search_mos_tool.queries.maxItems < (List.replicate 6 "q").length := by
  decide

end MosAgent
